import Mathlib

/-!
Verification of the Opportuna job-listing monitor (src/main.py) against its
specification.  The Python program is shallowly embedded: raw listings are
records of optional fields, Python truthiness is made explicit, external
effects (SMTP, HTTP) are driven by an environment describing their outcomes,
and the SQLite seen-table is a list of fingerprint strings with SQL semantics
(primary-key inserts fail on duplicates).
-/

namespace Opportuna

/-- A JSON value appearing in the `locations` or `terms` field of a raw
listing.  In the feeds it is a list of strings, but a source may hand back any
value, so a non-list alternative is kept (the code tests `isinstance(x, list)`). -/
inductive PyList where
  | list : List String → PyList
  | nonList : String → PyList
deriving DecidableEq, Repr

/-- A raw listing as returned by a source feed: a mapping whose keys may be
absent (`dict.get` returns `None`).  Fields are those read by main.py. -/
structure RawListing where
  company_name : Option String := none
  title : Option String := none
  locations : Option PyList := none
  date_posted : Option Nat := none
  sponsorship : Option String := none
  terms : Option PyList := none
  season : Option String := none
  url : Option String := none
deriving DecidableEq, Repr

/-- Python truthiness of an optional string: `None` and the empty string are
falsy. -/
def pyTruthyStr : Option String → Bool
  | none => false
  | some s => !(s == "")

/-- Python truthiness of an optional list-or-scalar value: `None`, the empty
list and the empty scalar are falsy. -/
def pyTruthyList : Option PyList → Bool
  | none => false
  | some (PyList.list l) => !l.isEmpty
  | some (PyList.nonList s) => !(s == "")

/-- main.py line 65: `locations[0] if isinstance(locations, list) and locations
else "N/A"`. -/
def firstLocation : Option PyList → String
  | some (PyList.list (x :: _)) => x
  | _ => "N/A"

/-- main.py lines 41-68: build the fingerprint `company::title::location`,
returning `None` when company, title or locations is missing or falsy. -/
def get_unique_id (l : RawListing) : Option String :=
  if pyTruthyStr l.company_name && pyTruthyStr l.title && pyTruthyList l.locations then
    some ((l.company_name.getD "") ++ "::" ++ (l.title.getD "") ++ "::" ++
      firstLocation l.locations)
  else
    none

/-- Python exception classes raised by the pipeline: SMTP failures from
`send_email`, `requests` failures from `add_to_notion`, and SQLite integrity
errors from the primary-key insert. -/
inductive PyErr where
  | smtp (msg : String)
  | request (msg : String)
  | integrity (msg : String)
deriving DecidableEq, Repr

/-- Outcome of an outbound HTTP request: either a response with a status code,
or a raised `requests.exceptions.RequestException`. -/
inductive NetOutcome where
  | resp (status : Nat)
  | raises (msg : String)
deriving DecidableEq, Repr

/-- Behaviour of the external collaborators during one per-listing step:
whether the SMTP dispatch raises, and what the Notion POST does. -/
structure Env where
  emailRaises : Option String
  notion : NetOutcome
deriving DecidableEq, Repr

/-- main.py lines 101-122: the SMTP dispatch either succeeds or raises; it
catches nothing internally. -/
def send_email (env : Env) : Except PyErr Unit :=
  match env.emailRaises with
  | some m => Except.error (PyErr.smtp m)
  | none => Except.ok ()

/-- Console log lines produced while processing one listing (main.py
lines 208-284). -/
inductive Event where
  | skippedInvalid
  | alreadySeen (uid : String)
  | newListingFound (uid : String)
  | emailSent (uid : String)
  | notionAdded
  | notionFailed (status : Nat)
  | inserted (uid : String)
  | errorLogged (uid : String) (e : PyErr)
deriving DecidableEq, Repr

/-- main.py lines 125-188: POST the listing to Notion.  The request itself may
raise (uncaught here); a response is always handled: 200/201 logs success, any
other status logs failure.  A non-success response never raises. -/
def add_to_notion (env : Env) (_l : RawListing) : Except PyErr (List Event) :=
  match env.notion with
  | NetOutcome.raises m => Except.error (PyErr.request m)
  | NetOutcome.resp status =>
      if status == 200 || status == 201 then Except.ok [Event.notionAdded]
      else Except.ok [Event.notionFailed status]

/-- main.py lines 218-219: `SELECT 1 FROM seen WHERE id=?` followed by
`fetchone` — a membership test on the seen table. -/
def sqlContainsSeen (seen : List String) (uid : String) : Bool :=
  decide (uid ∈ seen)

/-- main.py lines 276-277 against the schema of line 37: `INSERT INTO seen(id)
VALUES (?)` on a table whose `id` column is `TEXT PRIMARY KEY`.  Inserting a
fingerprint already present violates the uniqueness constraint and raises
`sqlite3.IntegrityError`; otherwise the row is appended and committed. -/
def sqlInsertSeen (seen : List String) (uid : String) : Except PyErr (List String) :=
  if uid ∈ seen then Except.error (PyErr.integrity "UNIQUE constraint failed: seen.id")
  else Except.ok (seen ++ [uid])

/-- The insert as observed through the per-listing exception boundary of
main.py lines 267-280: a raised insert is caught and leaves the table
unchanged. -/
def insertSeen (seen : List String) (uid : String) : List String :=
  match sqlInsertSeen seen uid with
  | Except.ok s => s
  | Except.error _ => seen

/-- main.py lines 32-38: `sqlite3.connect` then `CREATE TABLE IF NOT EXISTS
seen (id TEXT PRIMARY KEY)` — a missing database file starts empty, an
existing one is loaded intact, never truncated. -/
def initSeenDB : Option (List String) → List String
  | none => []
  | some s => s

/-- One iteration of the per-listing loop of main.py lines 208-284: build the
fingerprint, skip invalid listings, skip seen fingerprints, and otherwise run
the try-block — send the email, post to Notion, insert the fingerprint and
commit — catching any raised exception at this per-listing boundary. -/
def processListing (env : Env) (seen : List String) (l : RawListing) :
    List String × List Event :=
  match get_unique_id l with
  | none => (seen, [Event.skippedInvalid])
  | some uid =>
    if sqlContainsSeen seen uid then
      (seen, [Event.alreadySeen uid])
    else
      match send_email env with
      | Except.error e => (seen, [Event.newListingFound uid, Event.errorLogged uid e])
      | Except.ok _ =>
        match add_to_notion env l with
        | Except.error e =>
            (seen, [Event.newListingFound uid, Event.emailSent uid, Event.errorLogged uid e])
        | Except.ok notionEvts =>
          match sqlInsertSeen seen uid with
          | Except.error e =>
              (seen, [Event.newListingFound uid, Event.emailSent uid] ++ notionEvts ++
                [Event.errorLogged uid e])
          | Except.ok seen2 =>
              (seen2, [Event.newListingFound uid, Event.emailSent uid] ++ notionEvts ++
                [Event.inserted uid])

/-- The listing loop of `check_for_new_jobs`, processing listings one at a
time in fetch order, threading the seen table. -/
def processListings (env : Env) (seen : List String) :
    List RawListing → List String × List Event
  | [] => (seen, [])
  | l :: rest =>
      let r1 := processListing env seen l
      let r2 := processListings env r1.1 rest
      (r2.1, r1.2 ++ r2.2)

/-- Outcome of one source URL inside `fetch_listings`: either a parsed JSON
array of listings, or a `RequestException` (transport failure or the
`raise_for_status` of a non-2xx response). -/
inductive SourceOutcome where
  | success (listings : List RawListing)
  | failure (msg : String)
deriving DecidableEq, Repr

/-- main.py lines 71-98: iterate the configured sources in order; append each
successful JSON array to the results; log a failed source and continue with
the next one.  Returns the combined listings and the failure log lines. -/
def fetch_listings : List SourceOutcome → List RawListing × List String
  | [] => ([], [])
  | SourceOutcome.success ls :: rest =>
      let r := fetch_listings rest
      (ls ++ r.1, r.2)
  | SourceOutcome.failure m :: rest =>
      let r := fetch_listings rest
      (r.1, m :: r.2)

/-- main.py lines 192-284: one cycle — fetch all listings, then process each
in order against the seen table. -/
def check_for_new_jobs (env : Env) (seen : List String)
    (sources : List SourceOutcome) : List String × List Event :=
  processListings env seen (fetch_listings sources).1

/-- What one iteration of the main `while True` loop encounters: a cycle that
runs to completion, a cycle that raises an unanticipated exception, or a
keyboard interrupt. -/
inductive CycleInput where
  | run (env : Env) (sources : List SourceOutcome)
  | raises (msg : String)
  | interrupt
deriving DecidableEq, Repr

/-- Observable steps of the main loop (main.py lines 302-322). -/
inductive LoopEvent where
  | cycleRan
  | errorLogged (msg : String)
  | slept
  | shutdown
deriving DecidableEq, Repr

/-- main.py lines 302-322: the monitoring loop.  A completed cycle updates the
seen table and sleeps; an unanticipated exception is caught, logged, and the
loop sleeps and continues; a keyboard interrupt breaks out of the loop, after
which the connection is closed.  The trace argument lists what successive
iterations encounter; an exhausted trace means the process is still running. -/
def mainLoop (seen : List String) : List CycleInput → List String × List LoopEvent
  | [] => (seen, [])
  | CycleInput.run env sources :: rest =>
      let r := mainLoop (check_for_new_jobs env seen sources).1 rest
      (r.1, LoopEvent.cycleRan :: LoopEvent.slept :: r.2)
  | CycleInput.raises m :: rest =>
      let r := mainLoop seen rest
      (r.1, LoopEvent.errorLogged m :: LoopEvent.slept :: r.2)
  | CycleInput.interrupt :: _ => (seen, [LoopEvent.shutdown])

/-- A validated listing exposes its fingerprint shape and the truthiness of
its three required fields. -/
theorem get_unique_id_shape {l : RawListing} (h : (get_unique_id l).isSome = true) :
    get_unique_id l = some ((l.company_name.getD "") ++ "::" ++ (l.title.getD "") ++ "::" ++
      firstLocation l.locations) ∧
    pyTruthyStr l.company_name = true ∧ pyTruthyStr l.title = true ∧
    pyTruthyList l.locations = true := by
  by_cases hA : (pyTruthyStr l.company_name && pyTruthyStr l.title &&
      pyTruthyList l.locations) = true
  · have h3 := hA
    simp only [Bool.and_eq_true] at h3
    exact ⟨by simp [get_unique_id, hA], h3.1.1, h3.1.2, h3.2⟩
  · exfalso
    simp [get_unique_id, hA] at h

/-- A truthy optional string is `some` of its extracted value. -/
theorem pyTruthyStr_eq_some {o : Option String} (h : pyTruthyStr o = true) :
    o = some (o.getD "") := by
  cases o <;> simp_all [pyTruthyStr]

/-- Splitting a character list at a distinguished character: either one of the
two prefixes contains it, or prefixes and suffixes agree. -/
theorem split_at_colon {a b a2 b2 : List Char}
    (h : a ++ ':' :: b = a2 ++ ':' :: b2) :
    ':' ∈ a ∨ ':' ∈ a2 ∨ (a = a2 ∧ b = b2) := by
  induction a generalizing a2 with
  | nil =>
    cases a2 with
    | nil =>
      simp only [List.nil_append, List.cons.injEq] at h
      exact Or.inr (Or.inr ⟨rfl, h.2⟩)
    | cons y ys =>
      simp only [List.nil_append, List.cons_append, List.cons.injEq] at h
      exact Or.inr (Or.inl (by rw [← h.1]; exact List.mem_cons_self _ _))
  | cons x xs ih =>
    cases a2 with
    | nil =>
      simp only [List.nil_append, List.cons_append, List.cons.injEq] at h
      exact Or.inl (by rw [h.1]; exact List.mem_cons_self _ _)
    | cons y ys =>
      simp only [List.cons_append, List.cons.injEq] at h
      rcases ih h.2 with h1 | h1 | h1
      · exact Or.inl (List.mem_cons_of_mem _ h1)
      · exact Or.inr (Or.inl (List.mem_cons_of_mem _ h1))
      · exact Or.inr (Or.inr ⟨by rw [h.1, h1.1], h1.2⟩)

/-- The `company::title::location` encoding is injective as long as company
and title contain no colon (the location may contain anything). -/
theorem fingerprint_data_inj {c t x c2 t2 x2 : List Char}
    (hc : ':' ∉ c) (hc2 : ':' ∉ c2) (ht : ':' ∉ t) (ht2 : ':' ∉ t2)
    (h : c ++ ':' :: ':' :: (t ++ ':' :: ':' :: x) =
      c2 ++ ':' :: ':' :: (t2 ++ ':' :: ':' :: x2)) :
    c = c2 ∧ t = t2 ∧ x = x2 := by
  rcases split_at_colon h with h1 | h1 | h1
  · exact absurd h1 hc
  · exact absurd h1 hc2
  obtain ⟨e1, h2⟩ := h1
  have h3 : t ++ ':' :: ':' :: x = t2 ++ ':' :: ':' :: x2 := by
    simpa using h2
  rcases split_at_colon h3 with h4 | h4 | h4
  · exact absurd h4 ht
  · exact absurd h4 ht2
  obtain ⟨e2, h5⟩ := h4
  exact ⟨e1, e2, by simpa using h5⟩

/-- C1: two raw listings that both pass validation and agree on company name,
title and first location receive the identical fingerprint, whatever their
other fields hold. -/
theorem C1_fingerprint_determined_by_triple (l1 l2 : RawListing)
    (h1 : (get_unique_id l1).isSome = true) (h2 : (get_unique_id l2).isSome = true)
    (hc : l1.company_name = l2.company_name) (ht : l1.title = l2.title)
    (hl : firstLocation l1.locations = firstLocation l2.locations) :
    get_unique_id l1 = get_unique_id l2 := by
  rw [(get_unique_id_shape h1).1, (get_unique_id_shape h2).1, hc, ht, hl]

/-- C1 witness: two concrete validated listings agreeing on the triple but
differing in date, sponsorship, terms, season, url and the tail of the
location list still get one fingerprint. -/
theorem C1_witness :
    get_unique_id ⟨some "Acme", some "SWE Intern", some (PyList.list ["NYC", "LA"]),
      some 1700000000, some "Yes", some (PyList.list ["Summer 2026"]), none, some "u1"⟩ =
    get_unique_id ⟨some "Acme", some "SWE Intern", some (PyList.list ["NYC", "Remote"]),
      none, none, none, some "Fall", some "u2"⟩ :=
  C1_fingerprint_determined_by_triple _ _ (by decide) (by decide) (by decide) (by decide)
    (by decide)

/-- C2 counterexample: the `::` delimiter is not reserved — two validated
listings with different (company, title) pairs collide on the fingerprint
`a:::b::c` because a field may itself contain a colon. -/
theorem C2_fingerprint_collision :
    get_unique_id ⟨some "a:", some "b", some (PyList.list ["c"]), none, none, none,
      none, none⟩ = some "a:::b::c" ∧
    get_unique_id ⟨some "a", some ":b", some (PyList.list ["c"]), none, none, none,
      none, none⟩ = some "a:::b::c" ∧
    (some "a:" : Option String) ≠ some "a" ∧ (some "b" : Option String) ≠ some ":b" := by
  decide

/-- C2 amended: when neither company name nor title contains a colon, distinct
(company, title, first-location) triples give distinct fingerprints; without
that restriction the delimiter is ambiguous. -/
theorem C2_fingerprint_injective_without_colons (l1 l2 : RawListing)
    (h1 : (get_unique_id l1).isSome = true) (h2 : (get_unique_id l2).isSome = true)
    (nc1 : ':' ∉ (l1.company_name.getD "").data) (nt1 : ':' ∉ (l1.title.getD "").data)
    (nc2 : ':' ∉ (l2.company_name.getD "").data) (nt2 : ':' ∉ (l2.title.getD "").data)
    (hne : ¬(l1.company_name = l2.company_name ∧ l1.title = l2.title ∧
      firstLocation l1.locations = firstLocation l2.locations)) :
    get_unique_id l1 ≠ get_unique_id l2 := by
  intro heq
  obtain ⟨e1, v1c, v1t, _⟩ := get_unique_id_shape h1
  obtain ⟨e2, v2c, v2t, _⟩ := get_unique_id_shape h2
  rw [e1, e2] at heq
  have hs := Option.some.inj heq
  have hd := congrArg String.data hs
  simp only [String.data_append] at hd
  have hd2 : (l1.company_name.getD "").data ++ ':' :: ':' ::
      ((l1.title.getD "").data ++ ':' :: ':' :: (firstLocation l1.locations).data) =
      (l2.company_name.getD "").data ++ ':' :: ':' ::
      ((l2.title.getD "").data ++ ':' :: ':' :: (firstLocation l2.locations).data) := by
    simpa [List.append_assoc] using hd
  obtain ⟨ec, et, ex⟩ := fingerprint_data_inj nc1 nc2 nt1 nt2 hd2
  refine hne ⟨?_, ?_, String.ext ex⟩
  · rw [pyTruthyStr_eq_some v1c, pyTruthyStr_eq_some v2c, String.ext ec]
  · rw [pyTruthyStr_eq_some v1t, pyTruthyStr_eq_some v2t, String.ext et]

/-- C2 amended witness: two colon-free listings differing only in title have
different fingerprints. -/
theorem C2_injective_witness :
    get_unique_id ⟨some "Acme", some "SWE Intern", some (PyList.list ["NYC"]), none, none,
      none, none, none⟩ ≠
    get_unique_id ⟨some "Acme", some "PM Intern", some (PyList.list ["NYC"]), none, none,
      none, none, none⟩ :=
  C2_fingerprint_injective_without_colons _ _ (by decide) (by decide) (by decide)
    (by decide) (by decide) (by decide) (by decide)

/-- C3: when the notification dispatch raises for a new listing, the exception
is caught and logged at the per-listing boundary, the fingerprint is not
inserted into the seen table, and a later cycle over the unchanged table
reaches the email dispatch again. -/
theorem C3_email_failure_not_marked_seen (env : Env) (seen : List String)
    (l : RawListing) (uid m : String)
    (hu : get_unique_id l = some uid) (hn : uid ∉ seen) (he : env.emailRaises = some m) :
    processListing env seen l =
      (seen, [Event.newListingFound uid, Event.errorLogged uid (PyErr.smtp m)]) ∧
    (∀ env2 : Env, env2.emailRaises = none →
      Event.emailSent uid ∈ (processListing env2 seen l).2) := by
  have hc : sqlContainsSeen seen uid = false := by simp [sqlContainsSeen, hn]
  have hins : sqlInsertSeen seen uid = Except.ok (seen ++ [uid]) := by
    simp [sqlInsertSeen, hn]
  constructor
  · simp [processListing, hu, hc, send_email, he]
  · intro env2 he2
    cases hno : env2.notion with
    | raises m2 => simp [processListing, hu, hc, send_email, he2, add_to_notion, hno]
    | resp status =>
      by_cases hst : (status == 200 || status == 201) = true
      · simp [processListing, hu, hc, send_email, he2, add_to_notion, hno, hst, hins]
      · simp [processListing, hu, hc, send_email, he2, add_to_notion, hno, hst, hins]

/-- C3 witness: a concrete new listing whose SMTP dispatch raises is logged
and left out of the seen table, and a later cycle with a working SMTP server
attempts the email again. -/
theorem C3_witness :
    processListing ⟨some "SMTPAuthenticationError", NetOutcome.resp 200⟩ []
      ⟨some "Acme", some "SWE Intern", some (PyList.list ["NYC"]), none, none, none,
        none, none⟩ =
      ([], [Event.newListingFound "Acme::SWE Intern::NYC",
        Event.errorLogged "Acme::SWE Intern::NYC" (PyErr.smtp "SMTPAuthenticationError")]) ∧
    Event.emailSent "Acme::SWE Intern::NYC" ∈
      (processListing ⟨none, NetOutcome.resp 200⟩ []
        ⟨some "Acme", some "SWE Intern", some (PyList.list ["NYC"]), none, none, none,
          none, none⟩).2 :=
  ⟨(C3_email_failure_not_marked_seen ⟨some "SMTPAuthenticationError", NetOutcome.resp 200⟩
      [] _ _ _ (by decide) (by decide) rfl).1,
   (C3_email_failure_not_marked_seen ⟨some "SMTPAuthenticationError", NetOutcome.resp 200⟩
      [] _ _ _ (by decide) (by decide) rfl).2 ⟨none, NetOutcome.resp 200⟩ rfl⟩

/-- C4 counterexample: an archival-dispatch exception (the POST raising a
RequestException) propagates out of add_to_notion to the per-listing handler
and the fingerprint is NOT inserted, even though the email succeeded —
contradicting the claim that an archival-dispatch error still marks the
listing seen. -/
theorem C4_archival_exception_blocks_seen :
    processListing ⟨none, NetOutcome.raises "ConnectionError"⟩ []
      ⟨some "Acme", some "SWE Intern", some (PyList.list ["NYC"]), none, none, none,
        none, none⟩ =
      ([], [Event.newListingFound "Acme::SWE Intern::NYC",
        Event.emailSent "Acme::SWE Intern::NYC",
        Event.errorLogged "Acme::SWE Intern::NYC" (PyErr.request "ConnectionError")]) := by
  decide

/-- C4 amended: after a successful notification, a non-success archival
response is logged inside the Archiver, does not raise, and the fingerprint is
still inserted; an archival-dispatch exception instead escapes to the
per-listing boundary and the fingerprint is not inserted. -/
theorem C4_archival_nonsuccess_still_seen (env : Env) (seen : List String)
    (l : RawListing) (uid : String) (status : Nat) (m : String)
    (hu : get_unique_id l = some uid) (hn : uid ∉ seen) (he : env.emailRaises = none) :
    (env.notion = NetOutcome.resp status → status ≠ 200 → status ≠ 201 →
      processListing env seen l =
        (seen ++ [uid], [Event.newListingFound uid, Event.emailSent uid,
          Event.notionFailed status, Event.inserted uid])) ∧
    (env.notion = NetOutcome.raises m →
      processListing env seen l =
        (seen, [Event.newListingFound uid, Event.emailSent uid,
          Event.errorLogged uid (PyErr.request m)])) := by
  have hc : sqlContainsSeen seen uid = false := by simp [sqlContainsSeen, hn]
  have hins : sqlInsertSeen seen uid = Except.ok (seen ++ [uid]) := by
    simp [sqlInsertSeen, hn]
  constructor
  · intro hno h200 h201
    have hst : (status == 200 || status == 201) = false := by simp [h200, h201]
    simp [processListing, hu, hc, send_email, he, add_to_notion, hno, hst, hins]
  · intro hno
    simp [processListing, hu, hc, send_email, he, add_to_notion, hno]

/-- C4 amended witness: a concrete new listing whose archival POST returns
status 404 after a successful email is logged as an archival failure and still
inserted into the seen table. -/
theorem C4_witness :
    processListing ⟨none, NetOutcome.resp 404⟩ []
      ⟨some "Acme", some "SWE Intern", some (PyList.list ["NYC"]), none, none, none,
        none, none⟩ =
      (["Acme::SWE Intern::NYC"], [Event.newListingFound "Acme::SWE Intern::NYC",
        Event.emailSent "Acme::SWE Intern::NYC", Event.notionFailed 404,
        Event.inserted "Acme::SWE Intern::NYC"]) :=
  (C4_archival_nonsuccess_still_seen ⟨none, NetOutcome.resp 404⟩ [] _ _ 404 ""
    (by decide) (by decide) rfl).1 rfl (by decide) (by decide)

/-- C5 counterexample: the raw SQL insert is not idempotent — inserting a
fingerprint that is already present raises a uniqueness-constraint error
instead of being a no-op. -/
theorem C5_duplicate_insert_raises :
    sqlInsertSeen [] "Acme::SWE Intern::NYC" = Except.ok ["Acme::SWE Intern::NYC"] ∧
    sqlInsertSeen ["Acme::SWE Intern::NYC"] "Acme::SWE Intern::NYC" =
      Except.error (PyErr.integrity "UNIQUE constraint failed: seen.id") := by
  constructor
  · simp [sqlInsertSeen]
  · simp [sqlInsertSeen]

/-- C5 amended: inserting the same fingerprint twice leaves exactly one entry
for it — the second insert raises an IntegrityError rather than being a no-op,
and the failed statement does not modify the table. -/
theorem C5_insert_twice_single_entry (seen : List String) (uid : String)
    (h : uid ∉ seen) :
    sqlInsertSeen seen uid = Except.ok (seen ++ [uid]) ∧
    (seen ++ [uid]).count uid = 1 ∧
    sqlInsertSeen (seen ++ [uid]) uid =
      Except.error (PyErr.integrity "UNIQUE constraint failed: seen.id") ∧
    insertSeen (insertSeen seen uid) uid = seen ++ [uid] := by
  refine ⟨by simp [sqlInsertSeen, h], ?_, by simp [sqlInsertSeen], ?_⟩
  · rw [List.count_append, List.count_eq_zero.mpr h]
    simp
  · simp [insertSeen, sqlInsertSeen, h]

/-- C5 amended witness at a concrete table and fingerprint. -/
theorem C5_witness :
    sqlInsertSeen ["Other::Job::LA"] "Acme::SWE Intern::NYC" =
      Except.ok ["Other::Job::LA", "Acme::SWE Intern::NYC"] ∧
    (["Other::Job::LA"] ++ ["Acme::SWE Intern::NYC"]).count "Acme::SWE Intern::NYC" = 1 ∧
    sqlInsertSeen (["Other::Job::LA"] ++ ["Acme::SWE Intern::NYC"])
      "Acme::SWE Intern::NYC" =
      Except.error (PyErr.integrity "UNIQUE constraint failed: seen.id") ∧
    insertSeen (insertSeen ["Other::Job::LA"] "Acme::SWE Intern::NYC")
      "Acme::SWE Intern::NYC" = ["Other::Job::LA"] ++ ["Acme::SWE Intern::NYC"] :=
  C5_insert_twice_single_entry ["Other::Job::LA"] "Acme::SWE Intern::NYC" (by decide)

/-- C6: after inserting a fingerprint the contains check finds it, and a
restart — reconnecting and running CREATE TABLE IF NOT EXISTS — loads any
existing table intact (creating an empty one only when none exists), so the
membership survives the restart. -/
theorem C6_roundtrip_survives_restart (seen : List String) (uid : String) :
    sqlContainsSeen (insertSeen seen uid) uid = true ∧
    (∀ s : List String, initSeenDB (some s) = s) ∧
    initSeenDB none = [] ∧
    sqlContainsSeen (initSeenDB (some (insertSeen seen uid))) uid = true := by
  have hm : uid ∈ insertSeen seen uid := by
    by_cases h : uid ∈ seen
    · simp [insertSeen, sqlInsertSeen, h]
    · simp [insertSeen, sqlInsertSeen, h]
  exact ⟨by simp [sqlContainsSeen, hm], fun s => rfl, rfl,
    by simp [sqlContainsSeen, initSeenDB, hm]⟩

/-- C7: a raw listing with a missing, empty or falsy company name, title or
locations value gets no fingerprint; the per-listing step only logs the skip,
leaving the seen table untouched and dispatching nothing. -/
theorem C7_invalid_listing_discarded (env : Env) (seen : List String) (l : RawListing)
    (h : pyTruthyStr l.company_name = false ∨ pyTruthyStr l.title = false ∨
      pyTruthyList l.locations = false) :
    get_unique_id l = none ∧
    processListing env seen l = (seen, [Event.skippedInvalid]) := by
  have hA : (pyTruthyStr l.company_name && pyTruthyStr l.title &&
      pyTruthyList l.locations) = false := by
    rcases h with h | h | h <;> simp [h]
  have hg : get_unique_id l = none := by simp [get_unique_id, hA]
  exact ⟨hg, by simp [processListing, hg]⟩

/-- C7 witness: a listing with an empty company name is discarded with only a
skip log line. -/
theorem C7_witness :
    get_unique_id ⟨some "", some "SWE Intern", some (PyList.list ["NYC"]), none, none,
      none, none, none⟩ = none ∧
    processListing ⟨none, NetOutcome.resp 200⟩ ["x"]
      ⟨some "", some "SWE Intern", some (PyList.list ["NYC"]), none, none, none,
        none, none⟩ = (["x"], [Event.skippedInvalid]) :=
  C7_invalid_listing_discarded ⟨none, NetOutcome.resp 200⟩ ["x"] _ (Or.inl (by decide))

/-- C8: the fetch returns exactly the concatenation of the listing arrays of
the sources that succeeded, in source order with each sources internal order
kept, and logs exactly the failed sources — one failure never aborts the
others. -/
theorem C8_fetch_isolates_source_failures (sources : List SourceOutcome) :
    (fetch_listings sources).1 =
      (sources.filterMap fun s => match s with
        | SourceOutcome.success ls => some ls
        | SourceOutcome.failure _ => none).flatten ∧
    (fetch_listings sources).2 =
      sources.filterMap fun s => match s with
        | SourceOutcome.failure m => some m
        | SourceOutcome.success _ => none := by
  induction sources with
  | nil => exact ⟨rfl, rfl⟩
  | cons s rest ih =>
    cases s with
    | success ls => simp [fetch_listings, List.filterMap_cons, ih.1, ih.2]
    | failure m => simp [fetch_listings, List.filterMap_cons, ih.1, ih.2]

/-- C9: an unanticipated exception in a cycle is logged and followed by the
sleep and the next iteration, a keyboard interrupt shuts the loop down, and
the loop shuts down exactly when an interrupt occurs — errors alone never
terminate the process. -/
theorem C9_loop_survives_errors_until_interrupt :
    (∀ (m : String) (rest : List CycleInput) (seen : List String),
      mainLoop seen (CycleInput.raises m :: rest) =
        ((mainLoop seen rest).1,
          LoopEvent.errorLogged m :: LoopEvent.slept :: (mainLoop seen rest).2)) ∧
    (∀ (rest : List CycleInput) (seen : List String),
      mainLoop seen (CycleInput.interrupt :: rest) = (seen, [LoopEvent.shutdown])) ∧
    (∀ (seen : List String) (trace : List CycleInput),
      LoopEvent.shutdown ∈ (mainLoop seen trace).2 ↔ CycleInput.interrupt ∈ trace) := by
  refine ⟨fun m rest seen => rfl, fun rest seen => rfl, fun seen trace => ?_⟩
  induction trace generalizing seen with
  | nil => simp [mainLoop]
  | cons c rest ih =>
    cases c with
    | run env sources => simp [mainLoop, ih]
    | raises m => simp [mainLoop, ih]
    | interrupt => simp [mainLoop]

/-- Processing one listing never logs an IntegrityError: the insert only runs
in the branch where the preceding SELECT found no row for the fingerprint. -/
theorem processListing_no_integrity_error (env : Env) (seen : List String)
    (l : RawListing) (uid m : String) :
    Event.errorLogged uid (PyErr.integrity m) ∉ (processListing env seen l).2 := by
  cases hg : get_unique_id l with
  | none => simp [processListing, hg]
  | some u =>
    by_cases hc : sqlContainsSeen seen u = true
    · simp [processListing, hg, hc]
    · have hc2 : sqlContainsSeen seen u = false := by simpa using hc
      have hnotin : u ∉ seen := by simpa [sqlContainsSeen] using hc2
      have hins : sqlInsertSeen seen u = Except.ok (seen ++ [u]) := by
        simp [sqlInsertSeen, hnotin]
      cases he : env.emailRaises with
      | some em => simp [processListing, hg, hc2, send_email, he]
      | none =>
        cases hno : env.notion with
        | raises rm =>
          simp [processListing, hg, hc2, send_email, he, add_to_notion, hno]
        | resp status =>
          by_cases hst : (status == 200 || status == 201) = true
          · simp [processListing, hg, hc2, send_email, he, add_to_notion, hno, hst, hins]
          · simp [processListing, hg, hc2, send_email, he, add_to_notion, hno, hst, hins]

/-- The listing loop never logs an IntegrityError either, since each inserted
fingerprint is committed into the threaded table before the next listing is
examined. -/
theorem processListings_no_integrity_error (env : Env) (seen : List String)
    (listings : List RawListing) (uid m : String) :
    Event.errorLogged uid (PyErr.integrity m) ∉ (processListings env seen listings).2 := by
  induction listings generalizing seen with
  | nil => simp [processListings]
  | cons l rest ih =>
    simp only [processListings, List.mem_append]
    push_neg
    exact ⟨processListing_no_integrity_error env seen l uid m, ih _⟩

/-- C10: in every execution of check_for_new_jobs the INSERT runs only for
fingerprints the preceding SELECT did not find, each insert is committed
before the next listing is examined, and hence the duplicate-key error branch
of the primary-key constraint is unreachable — no IntegrityError is ever
logged. -/
theorem C10_duplicate_key_unreachable (env : Env) (seen : List String)
    (sources : List SourceOutcome) (uid m : String) :
    Event.errorLogged uid (PyErr.integrity m) ∉ (check_for_new_jobs env seen sources).2 :=
  processListings_no_integrity_error env seen (fetch_listings sources).1 uid m

end Opportuna
